import Mathlib

/-
Verification of the buffer-object lifecycle and handle-registry subsystem of
the drm_gralloc module (src/gralloc.cpp and src/gralloc_drm.cpp), as a shallow
embedding.  Machine integers that matter here are small bitmasks and counters,
modelled as Nat (usage masks, lock counts) and Int (error codes, refcounts).
Backend calls (drv->alloc / map / unmap / free) are modelled by parameters for
their outcomes plus explicit event records (call flags, freed lists).
-/

/- Usage flag constants from the Android gralloc usage enumeration
   (hardware/gralloc.h); the code treats them as opaque bit patterns. -/

def GRALLOC_USAGE_SW_READ_OFTEN : Nat := 0x3

def GRALLOC_USAGE_SW_READ_MASK : Nat := 0xF

def GRALLOC_USAGE_SW_WRITE_MASK : Nat := 0xF0

def GRALLOC_USAGE_HW_TEXTURE : Nat := 0x100

def GRALLOC_USAGE_HW_FB : Nat := 0x1000

def GRALLOC_USAGE_HW_VIDEO_ENCODER : Nat := 0x10000

def HAL_PIXEL_FORMAT_YCbCr_420_888 : Int := 35

/-- The software-access mask tested by gralloc_drm_bo_lock and
gralloc_drm_bo_unlock: GRALLOC_USAGE_SW_WRITE_MASK | GRALLOC_USAGE_SW_READ_MASK. -/
def swAccessMask : Nat := GRALLOC_USAGE_SW_WRITE_MASK ||| GRALLOC_USAGE_SW_READ_MASK

/-- The exemption mask of the first gate of gralloc_drm_bo_lock
(src/gralloc_drm.cpp lines 409-413): SW_READ_OFTEN | HW_FB | HW_TEXTURE |
HW_VIDEO_ENCODER. -/
def lockExemptMask : Nat :=
  GRALLOC_USAGE_SW_READ_OFTEN ||| GRALLOC_USAGE_HW_FB |||
  GRALLOC_USAGE_HW_TEXTURE ||| GRALLOC_USAGE_HW_VIDEO_ENCODER

/-- A gralloc handle value (struct gralloc_handle_t).  `id` stands for the
pointer value used as the key of drm_bo_handle_map; `valid` models whether
gralloc_handle(_handle) accepts it (magic/size check). -/
structure Handle where
  id : Nat
  valid : Bool
  name : Int
  prime_fd : Int
  format : Int
  width : Nat
  height : Nat
  stride : Nat
  usage : Nat
deriving DecidableEq

/-- A buffer object (struct gralloc_drm_bo_t): its handle, the imported flag,
the reference count, and the lock state. -/
structure Bo where
  handle : Handle
  imported : Bool
  refcount : Int
  lock_count : Nat
  locked_for : Nat
deriving DecidableEq

/-- Result of gralloc_drm_bo_lock: the error code (0 on success), the updated
bo, and whether the backend map call was made. -/
structure LockOut where
  err : Int
  bo : Bo
  mapCalled : Bool
deriving DecidableEq

/-- Result of gralloc_drm_bo_unlock: the updated bo and whether the backend
unmap call was made. -/
structure UnlockOut where
  bo : Bo
  unmapCalled : Bool
deriving DecidableEq

/-- The tail of gralloc_drm_bo_lock after the usage-compatibility gate
(src/gralloc_drm.cpp lines 420-442): the re-entrant-lock gate, the combined
usage, the optional backend map call (whose outcome is the `mapErr` parameter,
0 meaning success), and the lock-state update. -/
def bo_lock_after_usage_gate (mapErr : Int) (bo : Bo) (usage : Nat) : LockOut :=
  if bo.lock_count ≠ 0 ∧ (bo.locked_for &&& usage) ≠ usage then ⟨-22, bo, false⟩
  else if ((usage ||| bo.locked_for) &&& swAccessMask) ≠ 0 then
    if mapErr ≠ 0 then ⟨mapErr, bo, true⟩
    else ⟨0, { bo with lock_count := bo.lock_count + 1,
                       locked_for := bo.locked_for ||| (usage ||| bo.locked_for) }, true⟩
  else ⟨0, { bo with lock_count := bo.lock_count + 1,
                     locked_for := bo.locked_for ||| (usage ||| bo.locked_for) }, false⟩

/-- gralloc_drm_bo_lock (src/gralloc_drm.cpp lines 403-443): the first gate
rejects a requested usage that is not a subset of the declared usage unless the
declared usage intersects the exemption mask; then the tail above runs. -/
def gralloc_drm_bo_lock (mapErr : Int) (bo : Bo) (usage : Nat) : LockOut :=
  if (bo.handle.usage &&& usage) ≠ usage ∧ (bo.handle.usage &&& lockExemptMask) = 0 then
    ⟨-22, bo, false⟩
  else bo_lock_after_usage_gate mapErr bo usage

/-- gralloc_drm_bo_unlock (src/gralloc_drm.cpp lines 448-462). -/
def gralloc_drm_bo_unlock (bo : Bo) : UnlockOut :=
  if bo.lock_count = 0 then ⟨bo, false⟩
  else if bo.lock_count - 1 = 0 then
    ⟨{ bo with lock_count := bo.lock_count - 1, locked_for := 0 },
     (bo.locked_for &&& swAccessMask) ≠ 0⟩
  else
    ⟨{ bo with lock_count := bo.lock_count - 1 },
     (bo.locked_for &&& swAccessMask) ≠ 0⟩

/-- The process-wide state: drm_bo_handle_map (handle id to bo id), the heap
of live bos (`store`, keyed by an allocation id), the next fresh bo id, and
the list of bo ids passed to the backend free call, in order. -/
structure GrallocState where
  registry : List (Nat × Nat)
  store : List (Nat × Bo)
  nextId : Nat
  freed : List Nat
deriving DecidableEq

def emptyState : GrallocState := { registry := [], store := [], nextId := 0, freed := [] }

/-- Apply `f` to the store entry with key `i` (object update on the heap). -/
def updateBo (store : List (Nat × Bo)) (i : Nat) (f : Bo → Bo) : List (Nat × Bo) :=
  store.map fun e => if e.1 = i then (e.1, f e.2) else e

/-- Remove the store entry with key `i` (the object is freed). -/
def removeBo (store : List (Nat × Bo)) (i : Nat) : List (Nat × Bo) :=
  store.filter fun e => e.1 ≠ i

/-- The bo built by the import branch of validate_handle
(src/gralloc_drm.cpp lines 249-258): imported, refcount 1, no lock state. -/
def importBo (h : Handle) : Bo :=
  { handle := h, imported := true, refcount := 1, lock_count := 0, locked_for := 0 }

/-- validate_handle (src/gralloc_drm.cpp lines 231-261): look the handle up in
drm_bo_handle_map; on a miss, return null when no drm is given (check only) or
when gralloc_handle rejects the handle; otherwise, when the handle carries a
name or a prime fd, import a fresh bo (drv->alloc) with refcount 1 and
imported set.  Note the imported bo is not inserted into the map.  Returns the
bo id and the new state. -/
def validate_handle (st : GrallocState) (h : Handle) (withDrm : Bool) :
    Option Nat × GrallocState :=
  match st.registry.lookup h.id with
  | some boId => (some boId, st)
  | none =>
    if withDrm = false then (none, st)
    else if h.valid = false then (none, st)
    else if h.name ≠ 0 ∨ h.prime_fd ≥ 0 then
      (some st.nextId,
       { st with store := st.store ++ [(st.nextId, importBo h)], nextId := st.nextId + 1 })
    else (none, st)

/-- gralloc_drm_bo_destroy (src/gralloc_drm.cpp lines 328-343): no-op while the
refcount is nonzero; otherwise the backend free call is recorded and the bo is
removed from the heap. -/
def gralloc_drm_bo_destroy (st : GrallocState) (i : Nat) : GrallocState :=
  match st.store.lookup i with
  | none => st
  | some bo =>
    if bo.refcount ≠ 0 then st
    else { st with store := removeBo st.store i, freed := st.freed ++ [i] }

/-- gralloc_drm_bo_decref (src/gralloc_drm.cpp lines 348-352):
if (!--bo->refcount) destroy. -/
def gralloc_drm_bo_decref (st : GrallocState) (i : Nat) : GrallocState :=
  let st1 := { st with store := updateBo st.store i fun bo => { bo with refcount := bo.refcount - 1 } }
  match st1.store.lookup i with
  | none => st1
  | some bo => if bo.refcount = 0 then gralloc_drm_bo_destroy st1 i else st1

/-- gralloc_drm_handle_register (src/gralloc_drm.cpp lines 266-277):
validate_handle with the drm, -EINVAL on null, else bo->refcount++. -/
def gralloc_drm_handle_register (st : GrallocState) (h : Handle) : Int × GrallocState :=
  match validate_handle st h true with
  | (none, st1) => (-22, st1)
  | (some i, st1) =>
    (0, { st1 with store := updateBo st1.store i fun bo => { bo with refcount := bo.refcount + 1 } })

/-- gralloc_drm_handle_unregister (src/gralloc_drm.cpp lines 282-295):
validate_handle without a drm (registry lookup only), -EINVAL on null, else
decref once, and once more when the bo is imported.  (The second read of
bo->imported after a destroying first decref touches freed memory in the C
code; the model reads the heap and skips when the entry is gone.) -/
def gralloc_drm_handle_unregister (st : GrallocState) (h : Handle) : Int × GrallocState :=
  match validate_handle st h false with
  | (none, st1) => (-22, st1)
  | (some i, st1) =>
    let st2 := gralloc_drm_bo_decref st1 i
    let st3 :=
      match st2.store.lookup i with
      | some bo => if bo.imported then gralloc_drm_bo_decref st2 i else st2
      | none => st2
    (0, st3)

/-- gralloc_drm_bo_from_handle (src/gralloc_drm.cpp lines 357-360):
validate_handle with a null drm, a pure registry lookup. -/
def gralloc_drm_bo_from_handle (st : GrallocState) (h : Handle) : Option Nat :=
  (validate_handle st h false).1

/-- A register or unregister call, for reasoning about call sequences. -/
inductive RegOp where
  | reg (h : Handle)
  | unreg (h : Handle)
deriving DecidableEq

/-- Run a sequence of register/unregister calls from a state. -/
def runOps : List RegOp → GrallocState → GrallocState
  | [], st => st
  | RegOp.reg h :: rest, st => runOps rest (gralloc_drm_handle_register st h).2
  | RegOp.unreg h :: rest, st => runOps rest (gralloc_drm_handle_unregister st h).2

/-- The invariant every state reachable by register/unregister from the empty
state satisfies: the registry is never written, nothing is ever freed, and
every heap bo is an imported one whose refcount is 2 and whose id is below the
allocation counter. -/
def RegInv (st : GrallocState) : Prop :=
  st.registry = [] ∧ st.freed = [] ∧
  ∀ e ∈ st.store, e.2.refcount = 2 ∧ e.2.imported = true ∧ e.1 < st.nextId

/-- drm_mod_unlock (src/gralloc.cpp lines 263-282): resolve the handle through
gralloc_drm_bo_from_handle, -EINVAL when unknown, else gralloc_drm_bo_unlock.
The Bool result is whether the backend unmap call was made. -/
def drm_mod_unlock (st : GrallocState) (h : Handle) : Int × GrallocState × Bool :=
  match gralloc_drm_bo_from_handle st h with
  | none => (-22, st, false)
  | some i =>
    match st.store.lookup i with
    | none => (0, st, false)
    | some bo =>
      (0, { st with store := updateBo st.store i fun _ => (gralloc_drm_bo_unlock bo).bo },
       (gralloc_drm_bo_unlock bo).unmapCalled)

/-- The android_ycbcr output record of drm_mod_lock_ycbcr. -/
structure AndroidYcbcr where
  y : Nat
  cb : Nat
  cr : Nat
  ystride : Nat
  cstride : Nat
  chroma_step : Nat
deriving DecidableEq

/-- drm_mod_lock_ycbcr (src/gralloc.cpp lines 223-261): resolve the handle,
reject any format other than HAL_PIXEL_FORMAT_YCbCr_420_888 before locking,
then gralloc_drm_bo_lock; on success fill the plane addresses from the mapped
base address `mapAddr` and the handle's stride and height.  Returns the error
code, the ycbcr record, the new state and whether the backend map call was
made. -/
def drm_mod_lock_ycbcr (mapErr : Int) (mapAddr : Nat) (st : GrallocState)
    (h : Handle) (usage : Nat) : Int × Option AndroidYcbcr × GrallocState × Bool :=
  match gralloc_drm_bo_from_handle st h with
  | none => (-22, none, st, false)
  | some i =>
    match st.store.lookup i with
    | none => (-22, none, st, false)
    | some bo =>
      if bo.handle.format ≠ HAL_PIXEL_FORMAT_YCbCr_420_888 then (-22, none, st, false)
      else if (gralloc_drm_bo_lock mapErr bo usage).err ≠ 0 then
        ((gralloc_drm_bo_lock mapErr bo usage).err, none, st,
         (gralloc_drm_bo_lock mapErr bo usage).mapCalled)
      else
        (0,
         some { y := mapAddr
              , cb := mapAddr + bo.handle.stride * bo.handle.height
              , cr := mapAddr + bo.handle.stride * bo.handle.height + 1
              , ystride := bo.handle.stride
              , cstride := bo.handle.stride
              , chroma_step := 2 },
         { st with store := updateBo st.store i fun _ => (gralloc_drm_bo_lock mapErr bo usage).bo },
         (gralloc_drm_bo_lock mapErr bo usage).mapCalled)

/-- Modelled from the spec: gralloc_drm_get_bpp is defined in the repository
header gralloc_drm.h, which is not under src/.  The spec says a pixel format
must map to a known bytes-per-pixel and that unknown formats do not (bpp 0):
the usual RGBA/RGBX/BGRA 32-bit, RGB 24-bit and 565 16-bit formats are known. -/
def gralloc_drm_get_bpp (format : Int) : Nat :=
  if format = 1 ∨ format = 2 ∨ format = 5 then 4
  else if format = 3 then 3
  else if format = 4 then 2
  else 0

/-- gralloc_drm_bo_create (src/gralloc_drm.cpp lines 300-323): build a fresh
handle from the arguments (gralloc_handle_create), then the backend alloc call,
whose outcome is the `allocOk` parameter; on success the new bo has refcount 1
and imported cleared.  Returns the bo id. -/
def gralloc_drm_bo_create (st : GrallocState) (w hgt : Nat) (format : Int)
    (usage : Nat) (allocOk : Bool) : Option Nat × GrallocState :=
  if allocOk = false then (none, st)
  else
    let hdl : Handle :=
      { id := st.nextId, valid := true, name := 0, prime_fd := -1,
        format := format, width := w, height := hgt, stride := 0, usage := usage }
    let bo : Bo :=
      { handle := hdl, imported := false, refcount := 1, lock_count := 0, locked_for := 0 }
    (some st.nextId,
     { st with store := st.store ++ [(st.nextId, bo)], nextId := st.nextId + 1 })

/-- drm_mod_alloc_gpu0 (src/gralloc.cpp lines 314-350): reject a format with no
known bytes-per-pixel (-EINVAL) before anything else; otherwise create the bo
(-ENOMEM on backend failure), and run the framebuffer-attach path when needed.
The need_fb/add_fb pair lives in the KMS source file, which is not under src/;
modelled from the spec: the display-attach path runs only when the requested
usage implies scanout (HW_FB) and its failure (the `fbErr` parameter) destroys
the fresh bo and surfaces the error.  The Bool result records whether the
backend alloc call was made. -/
def drm_mod_alloc_gpu0 (st : GrallocState) (w hgt : Nat) (format : Int) (usage : Nat)
    (allocOk : Bool) (fbErr : Int) : Int × GrallocState × Bool :=
  if gralloc_drm_get_bpp format = 0 then (-22, st, false)
  else
    match gralloc_drm_bo_create st w hgt format usage allocOk with
    | (none, st1) => (-12, st1, true)
    | (some i, st1) =>
      if (usage &&& GRALLOC_USAGE_HW_FB) ≠ 0 ∧ fbErr ≠ 0 then
        (fbErr, gralloc_drm_bo_decref st1 i, true)
      else (0, st1, true)

/-- The drm_module_t state that drm_init touches: whether dmod->drm is non-null,
plus a count of the gralloc_drm_create calls made (event instrumentation). -/
structure DmodState where
  drm : Bool
  createCalls : Nat
deriving DecidableEq

/-- drm_init (src/gralloc.cpp lines 40-55): when dmod->drm is null, run
gralloc_drm_create (outcome given by `createOk` at the current attempt index),
-EINVAL when it fails; then, on success so far and when kms is requested, run
gralloc_drm_init_kms (that function lives in the KMS source file, not under
src/; its outcome is the `kmsErr` parameter). -/
def drm_init (createOk : Nat → Bool) (kmsErr : Int) (st : DmodState) (kms : Bool) :
    Int × DmodState :=
  if st.drm = false then
    if createOk st.createCalls then
      if kms then (kmsErr, { drm := true, createCalls := st.createCalls + 1 })
      else (0, { drm := true, createCalls := st.createCalls + 1 })
    else (-22, { drm := false, createCalls := st.createCalls + 1 })
  else if kms then (kmsErr, st) else (0, st)

/- Concrete fixtures used by witnesses and counterexamples. -/

/-- A valid importable handle (has a flink name, no prime fd). -/
def hA : Handle :=
  { id := 1, valid := true, name := 5, prime_fd := -1, format := 1,
    width := 64, height := 64, stride := 256, usage := 0x33 }

/-- A handle used for the unlock counterexample. -/
def hB : Handle :=
  { id := 2, valid := true, name := 6, prime_fd := -1, format := 1,
    width := 64, height := 64, stride := 256, usage := 0x33 }

/-- A handle whose registry key is 3, resolving to bo id 0 in `stK`. -/
def hK : Handle :=
  { id := 3, valid := true, name := 7, prime_fd := -1, format := 1,
    width := 64, height := 64, stride := 256, usage := 0x33 }

/-- A never-locked bo for the unlock no-op case. -/
def boK : Bo :=
  { handle := hK, imported := true, refcount := 2, lock_count := 0, locked_for := 0 }

/-- A state whose registry maps handle id 3 to bo id 0 (bo `boK`). -/
def stK : GrallocState :=
  { registry := [(3, 0)], store := [(0, boK)], nextId := 1, freed := [] }

/-- A bo whose declared usage has no exemption bit and does not contain bit 0. -/
def boNoExempt : Bo :=
  { handle := { id := 4, valid := true, name := 8, prime_fd := -1, format := 1,
                width := 64, height := 64, stride := 256, usage := 0x200 },
    imported := false, refcount := 1, lock_count := 0, locked_for := 0 }

/-- A bo declared for HW_FB use only (exempt from the usage gate). -/
def boExempt : Bo :=
  { handle := { id := 5, valid := true, name := 9, prime_fd := -1, format := 1,
                width := 64, height := 64, stride := 256, usage := 0x1000 },
    imported := false, refcount := 1, lock_count := 0, locked_for := 0 }

/-- A bo declared for software write use (0xF0), unlocked. -/
def boS : Bo :=
  { handle := { id := 6, valid := true, name := 10, prime_fd := -1, format := 1,
                width := 64, height := 64, stride := 256, usage := 0xF0 },
    imported := false, refcount := 1, lock_count := 0, locked_for := 0 }

/-- A bo already locked for SW_WRITE_OFTEN | HW_TEXTURE (0x130). -/
def boL : Bo :=
  { handle := { id := 7, valid := true, name := 11, prime_fd := -1, format := 1,
                width := 64, height := 64, stride := 256, usage := 0x130 },
    imported := false, refcount := 1, lock_count := 1, locked_for := 0x130 }

/-- A registered YCbCr_420_888 bo with stride 64 and height 64. -/
def boY : Bo :=
  { handle := { id := 8, valid := true, name := 12, prime_fd := -1, format := 35,
                width := 64, height := 64, stride := 64, usage := 0x33 },
    imported := true, refcount := 2, lock_count := 0, locked_for := 0 }

/-- A state whose registry maps handle id 8 to bo id 0 (bo `boY`). -/
def stY : GrallocState :=
  { registry := [(8, 0)], store := [(0, boY)], nextId := 1, freed := [] }

/-- Like `boY` but with a non-planar format (RGBA). -/
def boY2 : Bo :=
  { handle := { id := 9, valid := true, name := 13, prime_fd := -1, format := 1,
                width := 64, height := 64, stride := 64, usage := 0x33 },
    imported := true, refcount := 2, lock_count := 0, locked_for := 0 }

/-- A state whose registry maps handle id 9 to bo id 0 (bo `boY2`). -/
def stY2 : GrallocState :=
  { registry := [(9, 0)], store := [(0, boY2)], nextId := 1, freed := [] }

/-- The handle resolving to `boY` in `stY`. -/
def hY : Handle := boY.handle

/-- The handle resolving to `boY2` in `stY2`. -/
def hY2 : Handle := boY2.handle

/-- A creation oracle that always fails. -/
def alwaysFail : Nat → Bool := fun _ => false

/- Helper lemmas. -/

/-- Absorption law used by the lock-state update: OR-ing the accumulated mask
into the combined usage and back leaves exactly the union of the two. -/
theorem lor_merge (a u : Nat) : a ||| (u ||| a) = a ||| u := by
  apply Nat.eq_of_testBit_eq
  intro i
  simp only [Nat.testBit_or]
  cases a.testBit i <;> cases u.testBit i <;> rfl

/-- C3 (confirmed): gralloc_drm_bo_lock fails with -EINVAL and leaves the bo
untouched when the requested usage is not a subset of the declared usage and
the declared usage has none of the SW_READ_OFTEN / HW_FB / HW_TEXTURE /
HW_VIDEO_ENCODER exemption bits; when the declared usage has an exemption bit,
the first gate is skipped entirely and the call behaves as its tail
bo_lock_after_usage_gate, whatever the requested usage. -/
theorem c3_usage_gate (mapErr : Int) (bo : Bo) (usage : Nat) :
    ((bo.handle.usage &&& usage) ≠ usage → (bo.handle.usage &&& lockExemptMask) = 0 →
      gralloc_drm_bo_lock mapErr bo usage = ⟨-22, bo, false⟩) ∧
    ((bo.handle.usage &&& lockExemptMask) ≠ 0 →
      gralloc_drm_bo_lock mapErr bo usage = bo_lock_after_usage_gate mapErr bo usage) := by
  constructor
  · intro h1 h2
    unfold gralloc_drm_bo_lock
    rw [if_pos ⟨h1, h2⟩]
  · intro h1
    unfold gralloc_drm_bo_lock
    rw [if_neg]
    intro hc
    exact h1 hc.2

/-- C3 witness: a bo declared only for HW_RENDER (0x200) rejects a lock for
usage bit 0; a bo declared only for HW_FB is exempt and the gate is skipped. -/
theorem c3_usage_gate_witness :
    gralloc_drm_bo_lock 0 boNoExempt 1 = ⟨-22, boNoExempt, false⟩ ∧
    gralloc_drm_bo_lock 0 boExempt 0x40 = bo_lock_after_usage_gate 0 boExempt 0x40 :=
  ⟨(c3_usage_gate 0 boNoExempt 1).1 (by decide) (by decide),
   (c3_usage_gate 0 boExempt 0x40).2 (by decide)⟩

/-- C4 (confirmed): on an already-locked bo (lock_count nonzero), a lock whose
usage is not a subset of the accumulated locked_for mask fails with -EINVAL
and changes nothing; and every successful gralloc_drm_bo_lock increments
lock_count by exactly one and ORs the requested usage into locked_for. -/
theorem c4_reentrant_lock (mapErr : Int) (bo : Bo) (usage : Nat) :
    (bo.lock_count ≠ 0 → (bo.locked_for &&& usage) ≠ usage →
      gralloc_drm_bo_lock mapErr bo usage = ⟨-22, bo, false⟩) ∧
    (∀ out : LockOut, gralloc_drm_bo_lock mapErr bo usage = out → out.err = 0 →
      out.bo.lock_count = bo.lock_count + 1 ∧
      out.bo.locked_for = bo.locked_for ||| usage) := by
  constructor
  · intro h1 h2
    unfold gralloc_drm_bo_lock bo_lock_after_usage_gate
    split
    · rfl
    · rw [if_pos ⟨h1, h2⟩]
  · intro out heq herr
    unfold gralloc_drm_bo_lock bo_lock_after_usage_gate at heq
    split at heq
    · rw [← heq] at herr
      simp at herr
    · split at heq
      · rw [← heq] at herr
        simp at herr
      · split at heq
        · split at heq
          · rename_i hm
            rw [← heq] at herr
            exact absurd herr hm
          · rw [← heq]
            exact ⟨rfl, lor_merge _ _⟩
        · rw [← heq]
          exact ⟨rfl, lor_merge _ _⟩

/-- C4 witness: a bo locked for 0x130 rejects a further lock for 0xF0; a
successful first lock of `boS` for 0xF0 leaves lock_count 1 and locked_for
0xF0. -/
theorem c4_reentrant_lock_witness :
    gralloc_drm_bo_lock 0 boL 0xF0 = ⟨-22, boL, false⟩ ∧
    ((gralloc_drm_bo_lock 0 boS 0xF0).bo.lock_count = boS.lock_count + 1 ∧
     (gralloc_drm_bo_lock 0 boS 0xF0).bo.locked_for = boS.locked_for ||| 0xF0) :=
  ⟨(c4_reentrant_lock 0 boL 0xF0).1 (by decide) (by decide),
   (c4_reentrant_lock 0 boS 0xF0).2 (gralloc_drm_bo_lock 0 boS 0xF0) rfl (by decide)⟩

/-- C10 (confirmed): a gralloc_drm_bo_lock that returns a nonzero error leaves
the bo exactly as it was (lock_count and locked_for keep their values); and
when both gates pass, the combined usage requests software access and the
backend map call fails, the lock returns exactly the map error with the bo
unchanged. -/
theorem c10_map_failure (mapErr : Int) (bo : Bo) (usage : Nat) :
    (∀ out : LockOut, gralloc_drm_bo_lock mapErr bo usage = out → out.err ≠ 0 →
      out.bo = bo) ∧
    (¬((bo.handle.usage &&& usage) ≠ usage ∧ (bo.handle.usage &&& lockExemptMask) = 0) →
     ¬(bo.lock_count ≠ 0 ∧ (bo.locked_for &&& usage) ≠ usage) →
     ((usage ||| bo.locked_for) &&& swAccessMask) ≠ 0 →
     mapErr ≠ 0 →
     gralloc_drm_bo_lock mapErr bo usage = ⟨mapErr, bo, true⟩) := by
  constructor
  · intro out heq herr
    unfold gralloc_drm_bo_lock bo_lock_after_usage_gate at heq
    split at heq
    · rw [← heq]
    · split at heq
      · rw [← heq]
      · split at heq
        · split at heq
          · rw [← heq]
          · rw [← heq] at herr
            exact absurd rfl herr
        · rw [← heq] at herr
          exact absurd rfl herr
  · intro h1 h2 h3 h4
    unfold gralloc_drm_bo_lock bo_lock_after_usage_gate
    rw [if_neg h1, if_neg h2, if_pos h3, if_pos h4]

/-- C10 witness: locking `boS` (declared 0xF0) for software write with a map
call failing with -13 returns -13 and leaves the bo unchanged. -/
theorem c10_map_failure_witness :
    gralloc_drm_bo_lock (-13) boS 0xF0 = ⟨-13, boS, true⟩ :=
  (c10_map_failure (-13) boS 0xF0).2 (by decide) (by decide) (by decide) (by decide)

/-- Absorption law: the accumulated mask is contained in the combined usage,
so OR-ing it in again changes nothing. -/
theorem lor_absorb (a u : Nat) : a ||| (u ||| a) = u ||| a := by
  apply Nat.eq_of_testBit_eq
  intro i
  simp only [Nat.testBit_or]
  cases a.testBit i <;> cases u.testBit i <;> rfl

/-- Unlocking a bo whose lock_count was just incremented: the count returns to
its previous value, locked_for is cleared exactly when that value is 0, and
the unmap call happens exactly when the accumulated mask requests software
access. -/
theorem unlock_after_inc (bo : Bo) (L : Nat) :
    (gralloc_drm_bo_unlock
        { bo with lock_count := bo.lock_count + 1, locked_for := L }).bo.lock_count
      = bo.lock_count ∧
    (bo.lock_count = 0 →
      (gralloc_drm_bo_unlock
          { bo with lock_count := bo.lock_count + 1, locked_for := L }).bo.locked_for = 0) ∧
    (gralloc_drm_bo_unlock
        { bo with lock_count := bo.lock_count + 1, locked_for := L }).unmapCalled
      = decide ((L &&& swAccessMask) ≠ 0) := by
  unfold gralloc_drm_bo_unlock
  by_cases h : bo.lock_count = 0
  · simp [h]
  · simp [h]

/-- C8 (corrected): a successful gralloc_drm_bo_lock followed by
gralloc_drm_bo_unlock restores lock_count to its pre-lock value and clears
locked_for when that value was 0; the pair performs exactly one backend map
call and exactly one unmap call precisely when the COMBINED usage (the
requested mask OR-ed with the accumulated locked_for) includes a software
read or write flag — not when the requested mask alone does. -/
theorem c8_lock_unlock_pair (mapErr : Int) (bo : Bo) (usage : Nat) :
    ∀ out : LockOut, gralloc_drm_bo_lock mapErr bo usage = out → out.err = 0 →
      (gralloc_drm_bo_unlock out.bo).bo.lock_count = bo.lock_count ∧
      (bo.lock_count = 0 → (gralloc_drm_bo_unlock out.bo).bo.locked_for = 0) ∧
      (gralloc_drm_bo_unlock out.bo).unmapCalled = out.mapCalled ∧
      (out.mapCalled = true ↔ ((usage ||| bo.locked_for) &&& swAccessMask) ≠ 0) := by
  intro out heq herr
  unfold gralloc_drm_bo_lock bo_lock_after_usage_gate at heq
  split at heq
  · rw [← heq] at herr
    simp at herr
  · split at heq
    · rw [← heq] at herr
      simp at herr
    · split at heq
      · rename_i hsw
        split at heq
        · rename_i hm
          rw [← heq] at herr
          exact absurd herr hm
        · rw [← heq]
          have h1 := unlock_after_inc bo (bo.locked_for ||| (usage ||| bo.locked_for))
          refine ⟨h1.1, h1.2.1, ?_, ?_⟩
          · rw [h1.2.2, lor_absorb]
            exact decide_eq_true hsw
          · simpa using hsw
      · rename_i hsw
        rw [← heq]
        have h1 := unlock_after_inc bo (bo.locked_for ||| (usage ||| bo.locked_for))
        refine ⟨h1.1, h1.2.1, ?_, ?_⟩
        · rw [h1.2.2, lor_absorb]
          simp [hsw]
        · simpa using hsw

/-- C8 witness: locking the unlocked software-write bo `boS` for 0xF0 and
unlocking restores lock_count 0, clears locked_for, and the map/unmap pair is
performed since the combined usage 0xF0 requests software access. -/
theorem c8_lock_unlock_pair_witness :
    (gralloc_drm_bo_unlock (gralloc_drm_bo_lock 0 boS 0xF0).bo).bo.lock_count
        = boS.lock_count ∧
    (boS.lock_count = 0 →
      (gralloc_drm_bo_unlock (gralloc_drm_bo_lock 0 boS 0xF0).bo).bo.locked_for = 0) ∧
    (gralloc_drm_bo_unlock (gralloc_drm_bo_lock 0 boS 0xF0).bo).unmapCalled
        = (gralloc_drm_bo_lock 0 boS 0xF0).mapCalled ∧
    ((gralloc_drm_bo_lock 0 boS 0xF0).mapCalled = true ↔
      ((0xF0 ||| boS.locked_for) &&& swAccessMask) ≠ 0) :=
  c8_lock_unlock_pair 0 boS 0xF0 (gralloc_drm_bo_lock 0 boS 0xF0) rfl (by decide)

/-- C8 counterexample: on `boL`, already locked for 0x130 (software write and
texture), a second lock for the purely hardware usage HW_TEXTURE (0x100)
succeeds and still performs the backend map call, and the following unlock
performs the unmap call — refuting the claim that a purely hardware-side
requested usage makes no map or unmap call. -/
theorem c8_lock_unlock_pair_counterexample :
    ((0x100 : Nat) &&& swAccessMask) = 0 ∧
    (gralloc_drm_bo_lock 0 boL 0x100).err = 0 ∧
    (gralloc_drm_bo_lock 0 boL 0x100).mapCalled = true ∧
    (gralloc_drm_bo_unlock (gralloc_drm_bo_lock 0 boL 0x100).bo).unmapCalled = true := by
  decide

/-- validate_handle without a drm on a state whose registry is empty finds
nothing and changes nothing. -/
theorem validate_handle_nil_nodrm (st : GrallocState) (h : Handle)
    (hreg : st.registry = []) : validate_handle st h false = (none, st) := by
  unfold validate_handle
  rw [hreg]
  rfl

/-- validate_handle with a drm on an empty registry imports a fresh bo when the
handle is well-formed with a name or prime fd. -/
theorem validate_handle_nil_import (st : GrallocState) (h : Handle)
    (hreg : st.registry = []) (hv : h.valid = true) (hi : h.name ≠ 0 ∨ h.prime_fd ≥ 0) :
    validate_handle st h true =
      (some st.nextId,
       { st with store := st.store ++ [(st.nextId, importBo h)], nextId := st.nextId + 1 }) := by
  unfold validate_handle
  rw [hreg]
  simp [hv, hi]

/-- validate_handle with a drm on an empty registry rejects an invalid or
name-and-fd-less handle. -/
theorem validate_handle_nil_reject (st : GrallocState) (h : Handle)
    (hreg : st.registry = [])
    (hrej : h.valid = false ∨ ¬(h.name ≠ 0 ∨ h.prime_fd ≥ 0)) :
    validate_handle st h true = (none, st) := by
  unfold validate_handle
  rw [hreg]
  rcases hrej with hv | hi
  · simp [hv]
  · by_cases hv : h.valid = false
    · simp [hv]
    · simp [hv, hi]

/-- On an empty registry, unregister always fails with -EINVAL and changes
nothing: validate_handle runs without a drm and finds no bo. -/
theorem unregister_of_registry_nil (st : GrallocState) (h : Handle)
    (hreg : st.registry = []) : gralloc_drm_handle_unregister st h = (-22, st) := by
  unfold gralloc_drm_handle_unregister
  rw [validate_handle_nil_nodrm st h hreg]

/-- A register of a well-formed importable handle on an empty registry returns
0 and grows the heap by one bo. -/
theorem register_import_result (st : GrallocState) (h : Handle)
    (hreg : st.registry = [])
    (hv : h.valid = true) (hi : h.name ≠ 0 ∨ h.prime_fd ≥ 0) :
    (gralloc_drm_handle_register st h).1 = 0 ∧
    (gralloc_drm_handle_register st h).2.store.length = st.store.length + 1 := by
  unfold gralloc_drm_handle_register
  rw [validate_handle_nil_import st h hreg hv hi]
  exact ⟨rfl, by simp [updateBo]⟩

/-- Each register call preserves the reachable-state invariant. -/
theorem register_preserves_regInv (st : GrallocState) (h : Handle) (hInv : RegInv st) :
    RegInv (gralloc_drm_handle_register st h).2 := by
  obtain ⟨hreg, hfreed, hstore⟩ := hInv
  by_cases hv : h.valid = true
  · by_cases hi : h.name ≠ 0 ∨ h.prime_fd ≥ 0
    · unfold gralloc_drm_handle_register
      rw [validate_handle_nil_import st h hreg hv hi]
      refine ⟨hreg, hfreed, ?_⟩
      intro e he
      simp only [updateBo, List.mem_map, List.mem_append, List.mem_singleton] at he
      obtain ⟨a, ha, rfl⟩ := he
      rcases ha with ha | ha
      · have h3 := hstore a ha
        have hne : a.1 ≠ st.nextId := Nat.ne_of_lt h3.2.2
        rw [if_neg hne]
        exact ⟨h3.1, h3.2.1, Nat.lt_succ_of_lt h3.2.2⟩
      · subst ha
        refine ⟨by simp [importBo], by simp [importBo], by simp⟩
    · unfold gralloc_drm_handle_register
      rw [validate_handle_nil_reject st h hreg (Or.inr hi)]
      exact ⟨hreg, hfreed, hstore⟩
  · unfold gralloc_drm_handle_register
    rw [validate_handle_nil_reject st h hreg
          (Or.inl (by revert hv; cases h.valid <;> simp))]
    exact ⟨hreg, hfreed, hstore⟩

/-- Every state reachable by register/unregister calls from an invariant state
satisfies the invariant. -/
theorem regInv_runOps (ops : List RegOp) (st : GrallocState) (hInv : RegInv st) :
    RegInv (runOps ops st) := by
  induction ops generalizing st with
  | nil => exact hInv
  | cons op rest ih =>
    cases op with
    | reg h =>
      exact ih (gralloc_drm_handle_register st h).2 (register_preserves_regInv st h hInv)
    | unreg h =>
      show RegInv (runOps rest (gralloc_drm_handle_unregister st h).2)
      rw [unregister_of_registry_nil st h hInv.1]
      exact ih st hInv

/-- The empty state satisfies the invariant. -/
theorem regInv_empty : RegInv emptyState :=
  ⟨rfl, rfl, fun e he => absurd he (List.not_mem_nil e)⟩

/-- C1 (code-bug evidence): starting from the empty state, two register calls
on the same valid importable handle `hA` both succeed, yet import two distinct
bos (heap ids 0 and 1, each with its own refcount), and drm_bo_handle_map is
still empty afterwards — validate_handle never inserts the imported bo into
the map, so a process does not hold at most one bo per handle value and a
second register cannot find a registry entry to increment. -/
theorem c1_register_imports_twice :
    (gralloc_drm_handle_register emptyState hA).1 = 0 ∧
    (gralloc_drm_handle_register (gralloc_drm_handle_register emptyState hA).2 hA).1 = 0 ∧
    (runOps [RegOp.reg hA, RegOp.reg hA] emptyState).registry = [] ∧
    (runOps [RegOp.reg hA, RegOp.reg hA] emptyState).store =
      [(0, { handle := hA, imported := true, refcount := 2, lock_count := 0, locked_for := 0 }),
       (1, { handle := hA, imported := true, refcount := 2, lock_count := 0, locked_for := 0 })] := by
  decide

/-- C2 counterexample: after a single register of the fresh handle `hA` the
imported bo's refcount is 2, not the 1 + 0 − 0 = 1 the claimed formula gives;
an unregister of that same registered handle then fails with -EINVAL instead
of decrementing, and no bo is ever backend-freed by the sequence
register-then-unregister. -/
theorem c2_refcount_formula_counterexample :
    ((runOps [RegOp.reg hA] emptyState).store.lookup 0).map Bo.refcount = some 2 ∧
    (2 : Int) ≠ 1 ∧
    (gralloc_drm_handle_unregister (runOps [RegOp.reg hA] emptyState) hA).1 = -22 ∧
    (runOps [RegOp.reg hA, RegOp.unreg hA] emptyState).freed = [] := by
  decide

/-- C2 (corrected): for every sequence of register/unregister calls from the
empty state, the registry stays empty and no bo is ever destroyed
(backend-freed); every heap bo is an imported one whose refcount is exactly 2
(one reference from the import plus one from the register increment); every
unregister call — on any handle, registered before or not — fails with
-EINVAL and changes nothing, because no bo is ever known to the registry; and
a further register of any valid importable handle returns 0 and imports yet
another bo. -/
theorem c2_register_unregister_behavior (ops : List RegOp) :
    (runOps ops emptyState).registry = [] ∧
    (runOps ops emptyState).freed = [] ∧
    (∀ e ∈ (runOps ops emptyState).store, e.2.refcount = 2 ∧ e.2.imported = true) ∧
    (∀ h : Handle, gralloc_drm_handle_unregister (runOps ops emptyState) h
        = (-22, runOps ops emptyState)) ∧
    (∀ h : Handle, h.valid = true → (h.name ≠ 0 ∨ h.prime_fd ≥ 0) →
      (gralloc_drm_handle_register (runOps ops emptyState) h).1 = 0 ∧
      (gralloc_drm_handle_register (runOps ops emptyState) h).2.store.length
        = (runOps ops emptyState).store.length + 1) := by
  have hInv := regInv_runOps ops emptyState regInv_empty
  refine ⟨hInv.1, hInv.2.1, ?_, ?_, ?_⟩
  · intro e he
    exact ⟨(hInv.2.2 e he).1, (hInv.2.2 e he).2.1⟩
  · intro h
    exact unregister_of_registry_nil _ h hInv.1
  · intro h hv hi
    exact register_import_result _ h hInv.1 hv hi

/-- C2 witness: on the concrete sequence of one register of `hA`, the reached
state has the registered bo at refcount 2, a further unregister of `hA` fails
with -EINVAL leaving the state unchanged, and a further register of `hA`
succeeds and grows the heap. -/
theorem c2_register_unregister_behavior_witness :
    (((0 : Nat),
      ({ handle := hA, imported := true, refcount := 2, lock_count := 0,
         locked_for := 0 } : Bo)).2.refcount = 2 ∧
     ((0 : Nat),
      ({ handle := hA, imported := true, refcount := 2, lock_count := 0,
         locked_for := 0 } : Bo)).2.imported = true) ∧
    gralloc_drm_handle_unregister (runOps [RegOp.reg hA] emptyState) hA
      = (-22, runOps [RegOp.reg hA] emptyState) ∧
    (gralloc_drm_handle_register (runOps [RegOp.reg hA] emptyState) hA).1 = 0 :=
  ⟨(c2_register_unregister_behavior [RegOp.reg hA]).2.2.1 _ (by decide),
   (c2_register_unregister_behavior [RegOp.reg hA]).2.2.2.1 hA,
   ((c2_register_unregister_behavior [RegOp.reg hA]).2.2.2.2 hA (by decide)
      (by decide)).1⟩

/-- updateBo is the identity when the key is absent. -/
theorem updateBo_of_not_mem (store : List (Nat × Bo)) (i : Nat) (f : Bo → Bo)
    (h : i ∉ store.map Prod.fst) : updateBo store i f = store := by
  induction store with
  | nil => rfl
  | cons a t ih =>
    simp only [List.map_cons, List.mem_cons, not_or] at h
    unfold updateBo at ih ⊢
    simp only [List.map_cons]
    rw [if_neg fun hh => h.1 hh.symm, ih h.2]

/-- updateBo is the identity when the keyed bo is a fixed point of the update,
provided the heap keys are distinct. -/
theorem updateBo_fix (store : List (Nat × Bo)) (i : Nat) (f : Bo → Bo) (bo : Bo)
    (hfb : f bo = bo) (hnd : (store.map Prod.fst).Nodup)
    (hl : store.lookup i = some bo) : updateBo store i f = store := by
  induction store with
  | nil => cases hl
  | cons a t ih =>
    obtain ⟨k, b⟩ := a
    simp only [List.map_cons, List.nodup_cons] at hnd
    by_cases hik : i = k
    · subst hik
      have hb : b = bo := by simpa [List.lookup] using hl
      subst hb
      have ht := updateBo_of_not_mem t i f hnd.1
      unfold updateBo at ht ⊢
      simp [hfb, ht]
    · have hl2 : t.lookup i = some bo := by
        simpa [List.lookup, beq_false_of_ne hik] using hl
      have ht := ih hnd.2 hl2
      unfold updateBo at ht ⊢
      simp only [List.map_cons]
      rw [if_neg fun hh => hik hh.symm, ht]

/-- C5 counterexample: unlocking through a handle unknown to the process
(the empty state knows no handle) returns -EINVAL, not the silent success the
claim states. -/
theorem c5_unlock_unknown_counterexample :
    (drm_mod_unlock emptyState hB).1 = -22 ∧ ((-22 : Int) ≠ 0) := by
  decide

/-- C5 (corrected): drm_mod_unlock on a handle with no known bo fails with
-EINVAL (and changes nothing); only the never-locked case is the silent
success no-op: on a known bo with lock_count 0 it returns 0, makes no unmap
call, and leaves the state unchanged. -/
theorem c5_unlock_noop (st : GrallocState) (h : Handle) :
    (gralloc_drm_bo_from_handle st h = none →
      drm_mod_unlock st h = (-22, st, false)) ∧
    (∀ i bo, (st.store.map Prod.fst).Nodup →
      gralloc_drm_bo_from_handle st h = some i →
      st.store.lookup i = some bo → bo.lock_count = 0 →
      drm_mod_unlock st h = (0, st, false)) := by
  constructor
  · intro hn
    unfold drm_mod_unlock
    rw [hn]
  · intro i bo hnd hs hl hlc
    have hu : gralloc_drm_bo_unlock bo = ⟨bo, false⟩ := by
      unfold gralloc_drm_bo_unlock
      rw [if_pos hlc]
    unfold drm_mod_unlock
    simp only [hs, hl, hu]
    rw [updateBo_fix st.store i _ bo rfl hnd hl]

/-- C5 witness: on the empty state, unlocking `hB` fails with -EINVAL; on the
state `stK` whose registry knows `hK` as the never-locked bo `boK`, unlock is
a silent success no-op. -/
theorem c5_unlock_noop_witness :
    drm_mod_unlock emptyState hB = (-22, emptyState, false) ∧
    drm_mod_unlock stK hK = (0, stK, false) :=
  ⟨(c5_unlock_noop emptyState hB).1 (by decide),
   (c5_unlock_noop stK hK).2 0 boK (by decide) (by decide) (by decide) (by decide)⟩

/-- C7 (confirmed): drm_mod_lock_ycbcr on a known bo of any format other than
HAL_PIXEL_FORMAT_YCbCr_420_888 fails with -EINVAL with the state unchanged and
no map call made (the gate runs before the lock); and whenever it returns a
ycbcr record, that record is exactly luma = mapped base address, cb = base +
stride*height, cr = cb + 1, both strides equal to the bo's stride, and chroma
step 2. -/
theorem c7_lock_ycbcr (mapErr : Int) (mapAddr : Nat) (st : GrallocState)
    (h : Handle) (usage : Nat) :
    (∀ i bo, gralloc_drm_bo_from_handle st h = some i →
      st.store.lookup i = some bo →
      bo.handle.format ≠ HAL_PIXEL_FORMAT_YCbCr_420_888 →
      drm_mod_lock_ycbcr mapErr mapAddr st h usage = (-22, none, st, false)) ∧
    (∀ i bo e y st2 mc, gralloc_drm_bo_from_handle st h = some i →
      st.store.lookup i = some bo →
      bo.handle.format = HAL_PIXEL_FORMAT_YCbCr_420_888 →
      drm_mod_lock_ycbcr mapErr mapAddr st h usage = (e, some y, st2, mc) →
      e = 0 ∧
      y = { y := mapAddr
          , cb := mapAddr + bo.handle.stride * bo.handle.height
          , cr := mapAddr + bo.handle.stride * bo.handle.height + 1
          , ystride := bo.handle.stride
          , cstride := bo.handle.stride
          , chroma_step := 2 }) := by
  constructor
  · intro i bo hs hl hf
    unfold drm_mod_lock_ycbcr
    simp only [hs, hl]
    rw [if_pos hf]
  · intro i bo e y st2 mc hs hl hf heq
    unfold drm_mod_lock_ycbcr at heq
    simp only [hs, hl] at heq
    rw [if_neg (by simp [hf])] at heq
    split at heq
    · simp at heq
    · simp only [Prod.mk.injEq, Option.some.injEq] at heq
      exact ⟨heq.1.symm, heq.2.1.symm⟩

/-- C7 witness: on the state `stY` whose registry knows the YCbCr_420_888 bo
`boY` (stride 64, height 64), a planar lock with mapped base 4096 yields
luma 4096, cb 8192, cr 8193, strides 64 and chroma step 2; on `stY2`, whose bo
has format RGBA (1), the planar lock fails with -EINVAL before locking. -/
theorem c7_lock_ycbcr_witness :
    ((0 : Int) = 0 ∧
      ({ y := 4096, cb := 8192, cr := 8193, ystride := 64, cstride := 64,
         chroma_step := 2 } : AndroidYcbcr)
        = { y := 4096
          , cb := 4096 + boY.handle.stride * boY.handle.height
          , cr := 4096 + boY.handle.stride * boY.handle.height + 1
          , ystride := boY.handle.stride
          , cstride := boY.handle.stride
          , chroma_step := 2 }) ∧
    drm_mod_lock_ycbcr 0 4096 stY2 hY2 0x33 = (-22, none, stY2, false) :=
  ⟨(c7_lock_ycbcr 0 4096 stY hY 0x33).2 0 boY 0
      { y := 4096, cb := 8192, cr := 8193, ystride := 64, cstride := 64,
        chroma_step := 2 }
      (drm_mod_lock_ycbcr 0 4096 stY hY 0x33).2.2.1
      (drm_mod_lock_ycbcr 0 4096 stY hY 0x33).2.2.2
      (by decide) (by decide) (by decide) (by decide),
   (c7_lock_ycbcr 0 4096 stY2 hY2 0x33).1 0 boY2 (by decide) (by decide) (by decide)⟩

/-- C9 (confirmed): drm_mod_alloc_gpu0 with a pixel format that maps to no
known bytes-per-pixel fails with -EINVAL, makes no backend alloc call, and
changes no state, whatever the geometry, usage and backend outcomes. -/
theorem c9_alloc_unknown_format (st : GrallocState) (w hgt : Nat) (format : Int)
    (usage : Nat) (allocOk : Bool) (fbErr : Int)
    (hbpp : gralloc_drm_get_bpp format = 0) :
    drm_mod_alloc_gpu0 st w hgt format usage allocOk fbErr = (-22, st, false) := by
  unfold drm_mod_alloc_gpu0
  rw [if_pos hbpp]

/-- C9 witness: allocating a 64x64 buffer with the unknown format 999 fails
with -EINVAL and no backend call from the empty state. -/
theorem c9_alloc_unknown_format_witness :
    drm_mod_alloc_gpu0 emptyState 64 64 999 0x33 true 0 = (-22, emptyState, false) :=
  c9_alloc_unknown_format emptyState 64 64 999 0x33 true 0 (by decide)

/-- C6 counterexample: with backend creation failing every time, a first
drm_init call fails with -EINVAL and leaves the device unready, and a second
call runs gralloc_drm_create again — the creation-attempt count goes from 1
to 2 — refuting the claim that subsequent calls re-check and return the same
failure without re-running the backend creation logic. -/
theorem c6_init_retries_counterexample :
    drm_init alwaysFail 0 { drm := false, createCalls := 0 } false
      = (-22, { drm := false, createCalls := 1 }) ∧
    drm_init alwaysFail 0 { drm := false, createCalls := 1 } false
      = (-22, { drm := false, createCalls := 2 }) := by
  decide

/-- C6 (corrected): drm_init memoizes only success, never failure: while
dmod->drm is null, every call (without kms) re-runs gralloc_drm_create,
returning -EINVAL and bumping the attempt count whenever creation fails again
and succeeding when a later attempt succeeds; only once the device is created
do subsequent calls return success without another creation attempt. -/
theorem c6_init_failure_not_latched (createOk : Nat → Bool) (kmsErr : Int)
    (st : DmodState) :
    (st.drm = false → createOk st.createCalls = false →
      drm_init createOk kmsErr st false
        = (-22, { drm := false, createCalls := st.createCalls + 1 })) ∧
    (st.drm = false → createOk st.createCalls = true →
      drm_init createOk kmsErr st false
        = (0, { drm := true, createCalls := st.createCalls + 1 })) ∧
    (st.drm = true → drm_init createOk kmsErr st false = (0, st)) := by
  refine ⟨?_, ?_, ?_⟩
  · intro h1 h2
    simp [drm_init, h1, h2]
  · intro h1 h2
    simp [drm_init, h1, h2]
  · intro h3
    simp [drm_init, h3]

/-- C6 witness: a fifth failing attempt still re-runs creation and re-fails;
a ready device returns success unchanged. -/
theorem c6_init_failure_not_latched_witness :
    drm_init alwaysFail 0 { drm := false, createCalls := 5 } false
      = (-22, { drm := false, createCalls := 6 }) ∧
    drm_init alwaysFail 0 { drm := true, createCalls := 6 } false
      = (0, { drm := true, createCalls := 6 }) :=
  ⟨(c6_init_failure_not_latched alwaysFail 0
      { drm := false, createCalls := 5 }).1 rfl rfl,
   (c6_init_failure_not_latched alwaysFail 0
      { drm := true, createCalls := 6 }).2.2 rfl⟩
